import Mathlib

/-!
Shallow embedding of `src/Lexer/src/Lexer.cpp` (class `Lexer` and its
`tokenize` member), faithful to the source file as written.

Modelling decisions, each traceable to the source text:

* `TokenType` and `Token` mirror the C++ `enum class TokenType` and
  `struct Token` (fields `type`, `value`); `std::string` values are
  modelled as `List Char` of single-byte characters.
* The `unordered_map<string, TokenType> keywords` member is modelled as an
  association list.  `find` is `mapFind`; `operator[]` is `mapIndex`,
  which (like the C++ `operator[]`) inserts a value-initialised entry when
  the key is absent — value-initialisation of `enum class TokenType` gives
  the first enumerator, `Keyword`.
* Brace structure of `tokenize` (verified by tracing the braces of the
  source): the statement `return tokens;` at line 201 lies INSIDE the
  `while (position < input.length())` loop body, after the dispatch
  if/else chain, so the loop body runs at most once and the function
  returns at the end of the first iteration.  When the loop guard fails at
  entry (empty input), control falls off the end of the non-void function
  without returning — undefined behaviour in C++ — modelled as `none` in
  the `Option (List Token)` result.
* Inside the `else if (isDigit(c))` branch, the inner
  `if (number.find('.') != string::npos) {` block (line 171) is closed
  only at line 175, so it contains BOTH `type = TokenType::Float;` AND
  `tokens.push_back(Token(type, number));`; its `else` does `position++`.
  Hence a digit/dot run containing a dot emits one Float token, while a
  dotless run emits no token at all and advances the cursor one extra
  position past the run.
* The operator branch at line 181 compares `c` with the multi-character
  literal `'//'` (int value 0x2F2F) and the delimiter branch at line 193
  with `':3'` (int value 0x3A33); neither int value can equal a
  single-byte character, so both comparisons are always false and are
  omitted here (a comment marks each).
* The sub-scanners `getNextWord` / `getNextNumber` scan from `position`
  while the in-bounds character satisfies their predicate and return the
  consumed substring; this maximal in-bounds scan is exactly
  `List.takeWhile` on `input.drop position`, with the new position equal
  to the old position plus the consumed length.
-/

/-- Mirror of `enum class TokenType` (Lexer.cpp lines 9-18). -/
inductive TokenType where
  | Keyword
  | Identifier
  | Integer
  | Float
  | String
  | Operator
  | Delimiter
  | Unknown
deriving DecidableEq, Repr

/-- Mirror of `struct Token` (Lexer.cpp lines 21-27): a kind and the text. -/
structure Token where
  type : TokenType
  value : List Char
deriving DecidableEq, Repr

/-- Mirror of `Lexer::isWhitespace` (line 66-68). -/
def isWhitespace (c : Char) : Bool :=
  c == ' ' || c == '\t' || c == '\n' || c == '\r'

/-- Mirror of `Lexer::isAlpha` (line 78-80).  Note that, as in the source,
it also accepts the digits 0-9. -/
def isAlpha (c : Char) : Bool :=
  ('a' ≤ c && c ≤ 'z') || ('A' ≤ c && c ≤ 'Z') || ('0' ≤ c && c ≤ '9')

/-- Mirror of `Lexer::isDigit` (line 89-91). -/
def isDigit (c : Char) : Bool :=
  '0' ≤ c && c ≤ '9'

/-- Mirror of `Lexer::isAlphaNumeric` (line 100-102). -/
def isAlphaNumeric (c : Char) : Bool :=
  isAlpha c || isDigit c

/-- Mirror of `Lexer::initKeywords` (lines 40-56): the fourteen reserved
words, each mapped to `TokenType::Keyword`, in insertion order. -/
def initKeywords : List (List Char × TokenType) :=
  [ (['i', 'n', 't'], TokenType.Keyword),
    (['f', 'l', 'o', 'a', 't'], TokenType.Keyword),
    (['s', 't', 'r', 'i', 'n', 'g'], TokenType.Keyword),
    (['i', 'f'], TokenType.Keyword),
    (['e', 'l', 's', 'e'], TokenType.Keyword),
    (['w', 'h', 'i', 'l', 'e'], TokenType.Keyword),
    (['f', 'o', 'r'], TokenType.Keyword),
    (['s', 'w', 'i', 't', 'c', 'h'], TokenType.Keyword),
    (['c', 'a', 's', 'e'], TokenType.Keyword),
    (['d', 'e', 'f', 'a', 'u', 'l', 't'], TokenType.Keyword),
    (['b', 'r', 'e', 'a', 'k'], TokenType.Keyword),
    (['c', 'o', 'n', 't', 'i', 'n', 'u', 'e'], TokenType.Keyword),
    (['r', 'e', 't', 'u', 'r', 'n'], TokenType.Keyword),
    (['v', 'o', 'i', 'd'], TokenType.Keyword) ]

/-- Model of `unordered_map::find` on the association-list model of the
`keywords` member: the mapped value when the key is present, else `none`. -/
def mapFind (m : List (List Char × TokenType)) (k : List Char) : Option TokenType :=
  match m with
  | [] => none
  | p :: rest => if p.1 = k then some p.2 else mapFind rest k

/-- Model of `unordered_map::operator[]` on the association-list model:
returns the mapped value, inserting a value-initialised entry (the first
enumerator, `TokenType::Keyword`) when the key is absent, together with
the possibly-updated map. -/
def mapIndex (m : List (List Char × TokenType)) (k : List Char) :
    TokenType × List (List Char × TokenType) :=
  match mapFind m k with
  | some v => (v, m)
  | none => (TokenType.Keyword, m ++ [(k, TokenType.Keyword)])

/-- State of a `Lexer` object (lines 30-34): the input text, the scan
cursor `position`, and the `keywords` map. -/
structure Lexer where
  input : List Char
  position : Nat
  keywords : List (List Char × TokenType)
deriving Repr

/-- Mirror of the constructor `Lexer(const string&)` (lines 146-148):
cursor 0 and the keyword table built by `initKeywords`. -/
def Lexer.init (input : List Char) : Lexer :=
  { input := input, position := 0, keywords := initKeywords }

/-- Mirror of `Lexer::getNextWord` (lines 111-117): consume the maximal
in-bounds run of `isAlphaNumeric` characters starting at `position`;
returns the consumed substring and the updated position. -/
def getNextWord (input : List Char) (position : Nat) : List Char × Nat :=
  let word := (input.drop position).takeWhile isAlphaNumeric
  (word, position + word.length)

/-- Mirror of `Lexer::getNextNumber` (lines 127-137): consume the maximal
in-bounds run of characters that are digits or `'.'` starting at
`position`; returns the consumed substring and the updated position.
(The local `isFloat` flag of the source is dead: `tokenize` re-tests for a
dot with `number.find`.) -/
def getNextNumber (input : List Char) (position : Nat) : List Char × Nat :=
  let number := (input.drop position).takeWhile (fun c => isDigit c || c == '.')
  (number, position + number.length)

/-- Mirror of `Lexer::tokenize` (lines 158-202) as written in the source.
The result is the returned token vector paired with the final object
state.  Because `return tokens;` (line 201) sits inside the `while` loop,
the loop body executes at most once; when the input is empty the loop is
skipped and control falls off the end of the non-void function (undefined
behaviour), modelled by a `none` result. -/
def Lexer.tokenize (lx : Lexer) : Option (List Token) × Lexer :=
  if lx.position < lx.input.length then
    let c := lx.input.getD lx.position ' '
    if isWhitespace c then
      (some [], { lx with position := lx.position + 1 })
    else if isAlpha c then
      let wr := getNextWord lx.input lx.position
      if (mapFind lx.keywords wr.1).isSome then
        let iv := mapIndex lx.keywords wr.1
        (some [⟨iv.1, wr.1⟩], { lx with position := wr.2, keywords := iv.2 })
      else
        (some [⟨TokenType.Identifier, wr.1⟩], { lx with position := wr.2 })
    else if isDigit c then
      let nr := getNextNumber lx.input lx.position
      if nr.1.contains '.' then
        (some [⟨TokenType.Float, nr.1⟩], { lx with position := nr.2 })
      else
        -- the push_back is inside the dot-test brace; the else advances once more
        (some [], { lx with position := nr.2 + 1 })
    -- the comparison with the multi-character literal is always false and omitted
    else if c == '+' || c == '-' || c == '*' || c == '/' || c == '%' then
      (some [⟨TokenType.Operator, [c]⟩], { lx with position := lx.position + 1 })
    -- the comparison with the multi-character literal is always false and omitted
    else if c == '(' || c == ')' || c == ':' || c == '[' || c == ']' then
      (some [⟨TokenType.Delimiter, [c]⟩], { lx with position := lx.position + 1 })
    else
      (some [⟨TokenType.Unknown, [c]⟩], { lx with position := lx.position + 1 })
  else
    (none, lx)

/-- Helper: a successful `mapFind` means the key and value occur in the map. -/
theorem mapFind_some (m : List (List Char × TokenType)) (k : List Char) (v : TokenType)
    (h : mapFind m k = some v) : k ∈ m.map Prod.fst ∧ v ∈ m.map Prod.snd := by
  induction m with
  | nil => simp [mapFind] at h
  | cons p rest ih =>
    rw [mapFind] at h
    split at h
    · rename_i hpk
      injection h with h2
      refine ⟨?_, ?_⟩
      · simp only [List.map_cons, List.mem_cons]
        exact Or.inl hpk.symm
      · simp only [List.map_cons, List.mem_cons]
        exact Or.inl h2.symm
    · rename_i hpk
      obtain ⟨hk, hv⟩ := ih h
      refine ⟨?_, ?_⟩
      · simp only [List.map_cons, List.mem_cons]
        exact Or.inr hk
      · simp only [List.map_cons, List.mem_cons]
        exact Or.inr hv

/-- Helper: a failed `mapFind` means the key is absent from the map. -/
theorem mapFind_none (m : List (List Char × TokenType)) (k : List Char)
    (h : mapFind m k = none) : k ∉ m.map Prod.fst := by
  induction m with
  | nil => simp
  | cons p rest ih =>
    rw [mapFind] at h
    split at h
    · exact absurd h (by simp)
    · rename_i hpk
      simp only [List.map_cons, List.mem_cons]
      rintro (rfl | hk)
      · exact hpk rfl
      · exact ih h hk

/-- Helper: when the key is present, `operator[]` returns the mapped value
and leaves the map unchanged. -/
theorem mapIndex_of_find_some (m : List (List Char × TokenType)) (k : List Char)
    (v : TokenType) (h : mapFind m k = some v) : mapIndex m k = (v, m) := by
  unfold mapIndex
  rw [h]

/-- Helper: every value stored in the keyword table is `Keyword`. -/
theorem initKeywords_snd_keyword (v : TokenType) (hv : v ∈ initKeywords.map Prod.snd) :
    v = TokenType.Keyword := by
  simp [initKeywords] at hv
  exact hv

/-- Helper: `isAlpha` accepts every character `isDigit` accepts (its third
disjunct is the digit range test). -/
theorem isAlpha_of_isDigit (c : Char) (h : isDigit c = true) : isAlpha c = true := by
  rw [isDigit] at h
  rw [isAlpha, h]
  simp

/-- Helper: evaluation of `tokenize` when the first character is whitespace:
the first iteration only advances the cursor, and the misplaced `return`
then ends the scan with no tokens. -/
theorem tokenize_ws (c : Char) (rest : List Char) (hws : isWhitespace c = true) :
    Lexer.tokenize (Lexer.init (c :: rest)) =
      (some [], { input := c :: rest, position := 1, keywords := initKeywords }) := by
  simp [Lexer.tokenize, Lexer.init, hws]

/-- Helper: evaluation of `tokenize` when the first character satisfies
`isAlpha` and the consumed word is in the keyword table. -/
theorem tokenize_word_found (c : Char) (rest : List Char) (v : TokenType)
    (hws : isWhitespace c = false) (ha : isAlpha c = true)
    (hf : mapFind initKeywords ((c :: rest).takeWhile isAlphaNumeric) = some v) :
    Lexer.tokenize (Lexer.init (c :: rest)) =
      (some [⟨v, (c :: rest).takeWhile isAlphaNumeric⟩],
       { input := c :: rest, position := ((c :: rest).takeWhile isAlphaNumeric).length,
         keywords := initKeywords }) := by
  simp [Lexer.tokenize, Lexer.init, getNextWord, hws, ha, hf, mapIndex_of_find_some _ _ _ hf]

/-- Helper: evaluation of `tokenize` when the first character satisfies
`isAlpha` and the consumed word is not in the keyword table. -/
theorem tokenize_word_notfound (c : Char) (rest : List Char)
    (hws : isWhitespace c = false) (ha : isAlpha c = true)
    (hf : mapFind initKeywords ((c :: rest).takeWhile isAlphaNumeric) = none) :
    Lexer.tokenize (Lexer.init (c :: rest)) =
      (some [⟨TokenType.Identifier, (c :: rest).takeWhile isAlphaNumeric⟩],
       { input := c :: rest, position := ((c :: rest).takeWhile isAlphaNumeric).length,
         keywords := initKeywords }) := by
  simp [Lexer.tokenize, Lexer.init, getNextWord, hws, ha, hf]

/-- Helper: evaluation of `tokenize` when the first character is an operator
character.  (The digit branch cannot fire here: `isAlpha c = false` forces
`isDigit c = false`.) -/
theorem tokenize_op (c : Char) (rest : List Char)
    (hws : isWhitespace c = false) (ha : isAlpha c = false)
    (hop : (c == '+' || c == '-' || c == '*' || c == '/' || c == '%') = true) :
    Lexer.tokenize (Lexer.init (c :: rest)) =
      (some [⟨TokenType.Operator, [c]⟩],
       { input := c :: rest, position := 1, keywords := initKeywords }) := by
  have hd : isDigit c = false := by
    cases hdc : isDigit c
    · rfl
    · exact absurd (isAlpha_of_isDigit c hdc) (by simp [ha])
  simp [Lexer.tokenize, Lexer.init, hws, ha, hd, hop]

/-- Helper: evaluation of `tokenize` when the first character is a delimiter
character. -/
theorem tokenize_delim (c : Char) (rest : List Char)
    (hws : isWhitespace c = false) (ha : isAlpha c = false)
    (hop : (c == '+' || c == '-' || c == '*' || c == '/' || c == '%') = false)
    (hdel : (c == '(' || c == ')' || c == ':' || c == '[' || c == ']') = true) :
    Lexer.tokenize (Lexer.init (c :: rest)) =
      (some [⟨TokenType.Delimiter, [c]⟩],
       { input := c :: rest, position := 1, keywords := initKeywords }) := by
  have hd : isDigit c = false := by
    cases hdc : isDigit c
    · rfl
    · exact absurd (isAlpha_of_isDigit c hdc) (by simp [ha])
  simp [Lexer.tokenize, Lexer.init, hws, ha, hd, hop, hdel]

/-- Helper: evaluation of `tokenize` when the first character falls through
to the Unknown branch. -/
theorem tokenize_unknown (c : Char) (rest : List Char)
    (hws : isWhitespace c = false) (ha : isAlpha c = false)
    (hop : (c == '+' || c == '-' || c == '*' || c == '/' || c == '%') = false)
    (hdel : (c == '(' || c == ')' || c == ':' || c == '[' || c == ']') = false) :
    Lexer.tokenize (Lexer.init (c :: rest)) =
      (some [⟨TokenType.Unknown, [c]⟩],
       { input := c :: rest, position := 1, keywords := initKeywords }) := by
  have hd : isDigit c = false := by
    cases hdc : isDigit c
    · rfl
    · exact absurd (isAlpha_of_isDigit c hdc) (by simp [ha])
  simp [Lexer.tokenize, Lexer.init, hws, ha, hd, hop, hdel]

/-- C1: the claim states that for every finite input `tokenize` terminates
and returns a COMPLETE token sequence.  The code violates the completeness
half: `return tokens;` (line 201) sits inside the scanning loop, so the
scan returns at the end of its first iteration.  On input `"a b"` the code
returns only `Identifier("a")` and never scans `"b"`. -/
theorem C1_incomplete_scan :
    (Lexer.tokenize (Lexer.init ['a', ' ', 'b'])).1 =
      some [⟨TokenType.Identifier, ['a']⟩] := by decide

/-- C2: the claim states that a consumed numeric run becomes exactly one
Integer/Float token.  In the code the digit branch is unreachable —
`isAlpha` (line 79) also accepts digits, so the dispatch routes every
digit-leading run to the word scanner first — and on input `"3.14"` the
code emits `Identifier("3")` instead of `Float("3.14")`.  (Had the digit
branch been reachable, the misplaced brace at lines 171-177 would in
addition drop the token of every dotless run.) -/
theorem C2_number_run_mislexed :
    (Lexer.tokenize (Lexer.init ['3', '.', '1', '4'])).1 =
      some [⟨TokenType.Identifier, ['3']⟩] := by decide

/-- C3: the claim states that `"3.14 + x1"` scans to
`Float("3.14"), Operator("+"), Identifier("x1")`.  The code returns just
`Identifier("3")`: the digit-leading run is routed to the word scanner
(`isAlpha` accepts digits), which stops at the dot, and the scan then
returns because `return tokens;` is inside the loop. -/
theorem C3_scenario3_mislexed :
    (Lexer.tokenize (Lexer.init ['3', '.', '1', '4', ' ', '+', ' ', 'x', '1'])).1 =
      some [⟨TokenType.Identifier, ['3']⟩] := by decide

/-- C4: the claim states that `"int main() { return 0; }"` scans to the
nine-token sequence `Keyword(int) ... Unknown(})`.  The code returns only
the first token `Keyword("int")` because `return tokens;` is inside the
scanning loop. -/
theorem C4_scenario1_mislexed :
    (Lexer.tokenize (Lexer.init
      ['i', 'n', 't', ' ', 'm', 'a', 'i', 'n', '(', ')', ' ', '\x7b', ' ',
       'r', 'e', 't', 'u', 'r', 'n', ' ', '0', ';', ' ', '\x7d'])).1 =
      some [⟨TokenType.Keyword, ['i', 'n', 't']⟩] := by decide

/-- C6: the claim states that EVERY input character outside the recognised
classes yields one `Unknown` token.  On input `"a@"` the `'@'` yields no
token at all: the scan emits `Identifier("a")` and immediately returns
(line 201 is inside the loop), so the claimed per-character Unknown
fallback fails for every such character after the first token. -/
theorem C6_unknown_char_dropped :
    (Lexer.tokenize (Lexer.init ['a', '@'])).1 =
      some [⟨TokenType.Identifier, ['a']⟩] := by decide

/-- C7: the claim states that the emitted token texts, with skipped
whitespace re-inserted, reconstruct the input.  On input `"1 2"` the code
emits only `Identifier("1")` (the scan returns after the first token), so
the character `'2'` is lost and no re-insertion of whitespace can
reconstruct the input. -/
theorem C7_reconstruction_fails :
    (Lexer.tokenize (Lexer.init ['1', ' ', '2'])).1 =
      some [⟨TokenType.Identifier, ['1']⟩] := by decide

/-- C8: the claim states that empty input yields the empty token sequence.
On empty input the loop guard fails at entry and the only `return`
statement of `tokenize` (line 201, inside the loop) is never executed, so
control falls off the end of the non-void function — undefined behaviour,
modelled as `none` — rather than returning `[]`.  (Whitespace-only inputs
do return `[]`, but only because the first iteration returns early.) -/
theorem C8_empty_input_no_return :
    (Lexer.tokenize (Lexer.init [])).1 = none := by decide

/-- C5: every word token emitted by the scanner — equivalently, every token
of kind `Keyword` or `Identifier` in the output, since only the word branch
emits those kinds — is classified `Keyword` exactly when its text is one of
the fourteen spellings of the keyword table (`int`, `float`, `string`,
`if`, `else`, `while`, `for`, `switch`, `case`, `default`, `break`,
`continue`, `return`, `void`), and `Identifier` otherwise. -/
theorem C5_keyword_classification (input : List Char) (ts : List Token) (t : Token)
    (hts : (Lexer.tokenize (Lexer.init input)).1 = some ts) (ht : t ∈ ts)
    (hw : t.type = TokenType.Keyword ∨ t.type = TokenType.Identifier) :
    (t.type = TokenType.Keyword ↔ t.value ∈ initKeywords.map Prod.fst) := by
  cases input with
  | nil => simp [Lexer.tokenize, Lexer.init] at hts
  | cons c rest =>
    cases hws : isWhitespace c
    case true =>
      rw [tokenize_ws c rest hws] at hts
      simp at hts
      subst hts
      simp at ht
    case false =>
      cases ha : isAlpha c
      case true =>
        cases hf : mapFind initKeywords ((c :: rest).takeWhile isAlphaNumeric) with
        | some v =>
          rw [tokenize_word_found c rest v hws ha hf] at hts
          simp at hts
          subst hts
          simp at ht
          subst ht
          obtain ⟨hkmem, hvmem⟩ := mapFind_some _ _ _ hf
          rw [initKeywords_snd_keyword v hvmem]
          exact iff_of_true rfl hkmem
        | none =>
          rw [tokenize_word_notfound c rest hws ha hf] at hts
          simp at hts
          subst hts
          simp at ht
          subst ht
          exact iff_of_false (fun h => nomatch h) (mapFind_none _ _ hf)
      case false =>
        cases hop : (c == '+' || c == '-' || c == '*' || c == '/' || c == '%')
        case true =>
          rw [tokenize_op c rest hws ha hop] at hts
          simp at hts
          subst hts
          simp at ht
          subst ht
          rcases hw with h | h <;> simp at h
        case false =>
          cases hdel : (c == '(' || c == ')' || c == ':' || c == '[' || c == ']')
          case true =>
            rw [tokenize_delim c rest hws ha hop hdel] at hts
            simp at hts
            subst hts
            simp at ht
            subst ht
            rcases hw with h | h <;> simp at h
          case false =>
            rw [tokenize_unknown c rest hws ha hop hdel] at hts
            simp at hts
            subst hts
            simp at ht
            subst ht
            rcases hw with h | h <;> simp at h

/-- C5 witness: on input `"int"` the scanner emits the token
`Keyword("int")`, and the theorem instantiates to the (true) equivalence
for that token. -/
theorem C5_keyword_classification_witness :
    ((Token.mk TokenType.Keyword ['i', 'n', 't']).type = TokenType.Keyword ↔
      (Token.mk TokenType.Keyword ['i', 'n', 't']).value ∈ initKeywords.map Prod.fst) :=
  C5_keyword_classification ['i', 'n', 't'] [⟨TokenType.Keyword, ['i', 'n', 't']⟩]
    ⟨TokenType.Keyword, ['i', 'n', 't']⟩ (by decide) (by decide) (Or.inl rfl)

/-- C9: the keyword table is built by the constructor (`Lexer.init` sets it
to `initKeywords`) and `tokenize` leaves it unchanged on every input: the
classification lookup guards `operator[]` by `find`, so no entry is ever
inserted, and after `tokenize` returns the map still holds exactly the
fourteen entries it held after construction. -/
theorem C9_keyword_table_preserved (input : List Char) :
    ((Lexer.tokenize (Lexer.init input)).2).keywords = (Lexer.init input).keywords ∧
      (Lexer.init input).keywords.length = 14 := by
  refine ⟨?_, rfl⟩
  cases input with
  | nil => rfl
  | cons c rest =>
    cases hws : isWhitespace c
    case true =>
      rw [tokenize_ws c rest hws]
      rfl
    case false =>
      cases ha : isAlpha c
      case true =>
        cases hf : mapFind initKeywords ((c :: rest).takeWhile isAlphaNumeric) with
        | some v =>
          rw [tokenize_word_found c rest v hws ha hf]
          rfl
        | none =>
          rw [tokenize_word_notfound c rest hws ha hf]
          rfl
      case false =>
        cases hop : (c == '+' || c == '-' || c == '*' || c == '/' || c == '%')
        case true =>
          rw [tokenize_op c rest hws ha hop]
          rfl
        case false =>
          cases hdel : (c == '(' || c == ')' || c == ':' || c == '[' || c == ']')
          case true =>
            rw [tokenize_delim c rest hws ha hop hdel]
            rfl
          case false =>
            rw [tokenize_unknown c rest hws ha hop hdel]
            rfl

/-- C10: every token in the sequence returned by `tokenize` has non-empty
text: the word branch is entered only when `isAlpha` holds of the cursor
character, so its `takeWhile` run starts with that character, and every
single-character branch emits exactly one character. -/
theorem C10_tokens_nonempty (input : List Char) (ts : List Token) (t : Token)
    (hts : (Lexer.tokenize (Lexer.init input)).1 = some ts) (ht : t ∈ ts) :
    t.value ≠ [] := by
  cases input with
  | nil => simp [Lexer.tokenize, Lexer.init] at hts
  | cons c rest =>
    cases hws : isWhitespace c
    case true =>
      rw [tokenize_ws c rest hws] at hts
      simp at hts
      subst hts
      simp at ht
    case false =>
      cases ha : isAlpha c
      case true =>
        have hANt : isAlphaNumeric c = true := by rw [isAlphaNumeric, ha]; rfl
        cases hf : mapFind initKeywords ((c :: rest).takeWhile isAlphaNumeric) with
        | some v =>
          rw [tokenize_word_found c rest v hws ha hf] at hts
          simp at hts
          subst hts
          simp at ht
          subst ht
          simp [List.takeWhile_cons, hANt]
        | none =>
          rw [tokenize_word_notfound c rest hws ha hf] at hts
          simp at hts
          subst hts
          simp at ht
          subst ht
          simp [List.takeWhile_cons, hANt]
      case false =>
        cases hop : (c == '+' || c == '-' || c == '*' || c == '/' || c == '%')
        case true =>
          rw [tokenize_op c rest hws ha hop] at hts
          simp at hts
          subst hts
          simp at ht
          subst ht
          simp
        case false =>
          cases hdel : (c == '(' || c == ')' || c == ':' || c == '[' || c == ']')
          case true =>
            rw [tokenize_delim c rest hws ha hop hdel] at hts
            simp at hts
            subst hts
            simp at ht
            subst ht
            simp
          case false =>
            rw [tokenize_unknown c rest hws ha hop hdel] at hts
            simp at hts
            subst hts
            simp at ht
            subst ht
            simp

/-- C10 witness: on input `"a"` the scanner emits `Identifier("a")`, whose
text is non-empty. -/
theorem C10_tokens_nonempty_witness :
    (Token.mk TokenType.Identifier ['a']).value ≠ [] :=
  C10_tokens_nonempty ['a'] [⟨TokenType.Identifier, ['a']⟩]
    ⟨TokenType.Identifier, ['a']⟩ (by decide) (by decide)
